import Mathlib

/-!
Shallow embedding of the page-objects library (src/page_objects/__init__.py).

The library implements the Page Object pattern over an opaque Selenium-style
browser driver.  Driver behaviour is modelled as pure query functions on a
query root (Ctx); the driver outcomes that the code catches
(NoSuchElementException, TimeoutException) are explicit result constructors.
Descriptor reads and writes are translated line by line from the Python
source; Python truthiness of None, the empty list and the empty string is
modelled where the code branches on it.
-/

/-- A resolved DOM element handle returned by the driver. -/
structure Element where
  eid : Nat
deriving DecidableEq, Repr

/-- The selenium By strategy identifiers appearing in the locator map. -/
inductive By where
  | cssSelector
  | id
  | name
  | xpath
  | linkText
  | partialLinkText
  | tagName
  | className
deriving DecidableEq, Repr

/-- A locator in tuple form: (strategy, selector). -/
abbrev Locator := By × String

/-- LOCATOR_MAP: map PageElement constructor arguments to webdriver locator
enums, in source order. -/
def LOCATOR_MAP : List (String × By) :=
  [("css", By.cssSelector),
   ("id_", By.id),
   ("name", By.name),
   ("xpath", By.xpath),
   ("link_text", By.linkText),
   ("partial_link_text", By.partialLinkText),
   ("tag_name", By.tagName),
   ("class_name", By.className)]

/-- Python dict subscript on the locator map: some strategy when the keyword
is recognized, none for the KeyError case. -/
def locatorLookup (k : String) : Option By :=
  (List.find? (fun p => p.1 == k) LOCATOR_MAP).map Prod.snd

/-- Exceptions the constructors in the source can raise. -/
inductive PyError where
  | valueErrorNoLocator
  | valueErrorMultipleLocators
  | keyError (k : String)
  | valueErrorNoIframe
deriving DecidableEq, Repr

/-- Outcome of context.find_element(strategy, selector): the first matching
element, or a raised NoSuchElementException. -/
inductive FindElementResult where
  | found (e : Element)
  | raiseNoSuchElement
deriving DecidableEq, Repr

/-- Outcome of context.find_elements(strategy, selector). -/
inductive FindElementsResult where
  | found (es : List Element)
  | raiseNoSuchElement
deriving DecidableEq, Repr

/-- A dynamically typed resolution value: a single element, or a list of
elements (a wait condition may produce either). -/
inductive PyValue where
  | elem (e : Element)
  | elemList (es : List Element)
deriving DecidableEq, Repr

/-- Opaque token standing for the predicate object wait_condition(locator):
it records which condition factory built it and the locator it was applied
to, which is all the driver model needs to interpret it. -/
structure WaitPred where
  condTag : Nat
  locator : Locator
deriving DecidableEq, Repr

/-- A wait-condition factory: applied to the locator in tuple form, it yields
the predicate handed to WebDriverWait.until. -/
abbrev WaitCondition := Locator → WaitPred

/-- Outcome of WebDriverWait(context, t).until(pred): the satisfying truthy
value, or a raised TimeoutException. -/
inductive WaitResult where
  | satisfied (v : PyValue)
  | raiseTimeout
deriving DecidableEq, Repr

/-- A DOM query root (the webdriver itself, or an element for contextual
lookup): the driver capabilities that resolution uses. -/
structure Ctx where
  find_element : Locator → FindElementResult
  find_elements : Locator → FindElementsResult
  waitUntil : Nat → WaitPred → WaitResult

/-- The selenium webdriver handle: a query root together with the optional
ambient root_uri attribute that getattr(w, root_uri, None) consults. -/
structure Webdriver where
  ctx : Ctx
  root_uri : Option String

/-- A PageObject instance: the driver handle and the base URI resolved at
construction time. -/
structure PageObject where
  w : Webdriver
  root_uri : Option String

/-- PageObject constructor: root_uri if root_uri else getattr(w, root_uri,
None).  A Python-falsy argument (None, or the empty string) falls back to
the driver attribute. -/
def PageObject.init (webdriver : Webdriver) (root_uri : Option String) : PageObject :=
  ⟨webdriver,
   match root_uri with
   | some s => if s.isEmpty then webdriver.root_uri else some s
   | Option.none => webdriver.root_uri⟩

/-- PageObject.get: issues self.w.get(root_uri + uri) with root_uri taken as
self.root_uri or the empty string; the returned string is the URI passed to
the driver page-load call. -/
def PageObject.get (self : PageObject) (uri : String) : String :=
  (match self.root_uri with
   | some s => if s.isEmpty then "" else s
   | Option.none => "") ++ uri

/-- PageElement descriptor state, fixed at construction time. -/
structure PageElement where
  locator : Locator
  has_context : Bool
  wait_condition : Option WaitCondition
  wait_time : Nat

/-- PageElement constructor.  kwargs is the ordered keyword dictionary of
locator arguments.  Zero kwargs raises ValueError (no locator), more than
one raises ValueError (only one locator), and a single unrecognized keyword
raises KeyError from the locator map subscript. -/
def PageElement.init (context : Bool) (wait_condition : Option WaitCondition)
    (wait_time : Nat) (kwargs : List (String × String)) : Except PyError PageElement :=
  match kwargs with
  | [] => Except.error PyError.valueErrorNoLocator
  | (k, v) :: rest =>
    if rest.isEmpty then
      match locatorLookup k with
      | some strat => Except.ok ⟨(strat, v), context, wait_condition, wait_time⟩
      | Option.none => Except.error (PyError.keyError k)
    else Except.error PyError.valueErrorMultipleLocators

/-- PageElement.find: context.find_element(*locator) with
NoSuchElementException caught and converted to None. -/
def PageElement.find (self : PageElement) (context : Ctx) : Option Element :=
  match context.find_element self.locator with
  | FindElementResult.found e => some e
  | FindElementResult.raiseNoSuchElement => Option.none

/-- PageElement.find_delayed: WebDriverWait(context, wait_time) .until
(wait_condition(locator)) with TimeoutException caught and converted to
None.  The branch for an unset wait_condition is unreachable from attribute
reads (the descriptor only calls find_delayed when a wait condition is
configured) and is mapped to None. -/
def PageElement.find_delayed (self : PageElement) (context : Ctx) : Option PyValue :=
  match self.wait_condition with
  | some wc =>
    match context.waitUntil self.wait_time (wc self.locator) with
    | WaitResult.satisfied v => some v
    | WaitResult.raiseTimeout => Option.none
  | Option.none => Option.none

/-- MultiPageElement.find: context.find_elements(*locator) with
NoSuchElementException caught and converted to the empty list. -/
def MultiPageElement.find (self : PageElement) (context : Ctx) : List Element :=
  match context.find_elements self.locator with
  | FindElementsResult.found es => es
  | FindElementsResult.raiseNoSuchElement => []

/-- Result of a descriptor read: a resolved Python value (None, an element,
or a list), or the context-pending one-argument callable returned for a
contextual binding read without a context. -/
inductive GetResult where
  | res (r : Option PyValue)
  | pending (f : Ctx → Option PyValue)

/-- The tail of the descriptor read once a query root is fixed: the waited
path when a wait condition is configured, the immediate find otherwise.
findFn abstracts the virtual dispatch of find between PageElement and
MultiPageElement. -/
def resolveWith (self : PageElement) (findFn : PageElement → Ctx → Option PyValue)
    (context : Ctx) : Option PyValue :=
  if self.wait_condition.isSome then PageElement.find_delayed self context
  else findFn self context

/-- The shared descriptor-read protocol of both element classes.  A class
access (instance None) yields None.  A contextual binding read without a
context yields the lambda that re-enters the read with the supplied context;
since a supplied context element is always truthy, that lambda is unfolded
here to its resolved form.  Otherwise the query root is the supplied context
if any, else instance.w. -/
def getImpl (self : PageElement) (findFn : PageElement → Ctx → Option PyValue)
    (inst : Option PageObject) (context : Option Ctx) : GetResult :=
  match inst with
  | Option.none => GetResult.res Option.none
  | some i =>
    match context with
    | some c => GetResult.res (resolveWith self findFn c)
    | Option.none =>
      if self.has_context then GetResult.pending (fun c => resolveWith self findFn c)
      else GetResult.res (resolveWith self findFn i.w.ctx)

/-- PageElement.find lifted to the dynamically typed value the read returns. -/
def PageElement.findV (self : PageElement) (context : Ctx) : Option PyValue :=
  (PageElement.find self context).map PyValue.elem

/-- MultiPageElement.find lifted: the list value itself, possibly empty,
never None. -/
def MultiPageElement.findV (self : PageElement) (context : Ctx) : Option PyValue :=
  some (PyValue.elemList (MultiPageElement.find self context))

/-- Attribute read through a PageElement descriptor. -/
def PageElement.get (self : PageElement) (inst : Option PageObject)
    (context : Option Ctx) : GetResult :=
  getImpl self PageElement.findV inst context

/-- Attribute read through a MultiPageElement descriptor: it inherits the
read protocol and overrides find. -/
def MultiPageElement.get (self : PageElement) (inst : Option PageObject)
    (context : Option Ctx) : GetResult :=
  getImpl self MultiPageElement.findV inst context

/-- Outcome of a descriptor write: the send_keys calls issued in order, one
of the two ValueError messages from the source, or the error Python itself
would raise on a mistyped resolution value. -/
inductive SetResult where
  | sent (calls : List (Element × String))
  | valueErrorContext
  | valueErrorNotFound
  | attributeError
  | typeError
deriving DecidableEq, Repr

/-- PageElement set descriptor: contextual bindings are rejected before any
resolution; otherwise the element is resolved by the read protocol with no
explicit context, a falsy result (None, or an empty list) raises the
not-found ValueError, and the value is sent as keystrokes to the element.
A truthy non-element resolution value (possible only when a wait condition
yields a list) would raise AttributeError at send_keys in Python. -/
def PageElement.set (self : PageElement) (inst : PageObject) (value : String) : SetResult :=
  if self.has_context then SetResult.valueErrorContext
  else
    match PageElement.get self (some inst) Option.none with
    | GetResult.res Option.none => SetResult.valueErrorNotFound
    | GetResult.res (some (PyValue.elem e)) => SetResult.sent [(e, value)]
    | GetResult.res (some (PyValue.elemList [])) => SetResult.valueErrorNotFound
    | GetResult.res (some (PyValue.elemList (_ :: _))) => SetResult.attributeError
    | GetResult.pending _ => SetResult.attributeError

/-- MultiPageElement set descriptor: contextual bindings are rejected before
any resolution; a falsy resolution (None, or the empty list) raises the
not-found ValueError; otherwise the value is sent to every matched element
in resolution order.  Iterating a non-list resolution value would raise
TypeError in Python. -/
def MultiPageElement.set (self : PageElement) (inst : PageObject) (value : String) : SetResult :=
  if self.has_context then SetResult.valueErrorContext
  else
    match MultiPageElement.get self (some inst) Option.none with
    | GetResult.res Option.none => SetResult.valueErrorNotFound
    | GetResult.res (some (PyValue.elemList [])) => SetResult.valueErrorNotFound
    | GetResult.res (some (PyValue.elemList es)) =>
      SetResult.sent (es.map (fun e => (e, value)))
    | GetResult.res (some (PyValue.elem _)) => SetResult.typeError
    | GetResult.pending _ => SetResult.typeError

/-- An exception raised by a scoped block, opaque to the context manager. -/
structure PyExc where
  msg : String
deriving DecidableEq, Repr

/-- Browsing-context switching calls issued to the driver. -/
inductive FrameCall where
  | switchToFrame (e : Element)
  | switchToDefaultContent
deriving DecidableEq, Repr

/-- IframeElement state after construction: the stored frame element (the
parent driver back-reference is the single modelled driver). -/
structure IframeElement where
  iframe : Element
deriving DecidableEq, Repr

/-- IframeElement constructor: a None argument raises ValueError, otherwise
the element is stored. -/
def IframeElement.init (iframe_element : Option Element) : Except PyError IframeElement :=
  match iframe_element with
  | Option.none => Except.error PyError.valueErrorNoIframe
  | some e => Except.ok ⟨e⟩

/-- The driver calls issued on scope entry: driver.switch_to.frame(iframe). -/
def IframeElement.enter (self : IframeElement) : List FrameCall :=
  [FrameCall.switchToFrame self.iframe]

/-- The driver calls issued on scope exit:
driver.switch_to_default_content(). -/
def IframeElement.exitCalls (_ : IframeElement) : List FrameCall :=
  [FrameCall.switchToDefaultContent]

/-- The exit handler returns None, a falsy value: a block exception is never
suppressed. -/
def IframeElement.exitReturn (_ : IframeElement) : Bool :=
  false

/-- Python with-statement semantics for a manager whose exit handler always
runs: entry calls first, then the block, then the exit calls whether or not
the block raised; the block exception propagates unless the exit handler
returned a truthy value. -/
def pyWith (enterCalls blockCalls exitCalls : List FrameCall)
    (blockResult : Except PyExc Unit) (exitRet : Bool) :
    Except PyExc Unit × List FrameCall :=
  (match blockResult with
   | Except.ok u => Except.ok u
   | Except.error e => if exitRet then Except.ok () else Except.error e,
   enterCalls ++ blockCalls ++ exitCalls)

/-- Running a scoped block under an IframeElement: the block, with its own
outcome and driver calls, runs between scope entry and scope exit. -/
def IframeElement.withScope (self : IframeElement) (blockResult : Except PyExc Unit)
    (blockCalls : List FrameCall) : Except PyExc Unit × List FrameCall :=
  pyWith (IframeElement.enter self) blockCalls (IframeElement.exitCalls self)
    blockResult (IframeElement.exitReturn self)

/-! Concrete fixtures used by witnesses and counterexamples. -/

/-- A sample element. -/
def elemA : Element := ⟨1⟩

/-- Another sample element. -/
def elemB : Element := ⟨2⟩

/-- A query root where every query finds elements and every wait is
satisfied. -/
def ctxHit : Ctx :=
  ⟨fun _ => FindElementResult.found elemA,
   fun _ => FindElementsResult.found [elemA, elemB],
   fun _ _ => WaitResult.satisfied (PyValue.elem elemA)⟩

/-- A query root where every query misses and every wait times out. -/
def ctxMiss : Ctx :=
  ⟨fun _ => FindElementResult.raiseNoSuchElement,
   fun _ => FindElementsResult.found [],
   fun _ _ => WaitResult.raiseTimeout⟩

/-- A driver over ctxHit with no ambient root_uri attribute. -/
def driverHit : Webdriver := ⟨ctxHit, Option.none⟩

/-- A driver over ctxMiss with no ambient root_uri attribute. -/
def driverMiss : Webdriver := ⟨ctxMiss, Option.none⟩

/-- A page whose driver finds everything. -/
def pageHit : PageObject := ⟨driverHit, Option.none⟩

/-- A page whose driver finds nothing. -/
def pageMiss : PageObject := ⟨driverMiss, Option.none⟩

/-- A sample wait-condition factory. -/
def wcSample : WaitCondition := fun l => ⟨0, l⟩

/-- A sample locator. -/
def cssLoc : Locator := (By.cssSelector, "div.x")

/-- A plain binding: no context, no wait. -/
def plainBinding : PageElement := ⟨cssLoc, false, Option.none, 5⟩

/-- A contextual binding. -/
def ctxBinding : PageElement := ⟨cssLoc, true, Option.none, 5⟩

/-- A wait-configured binding. -/
def waitedBinding : PageElement := ⟨cssLoc, false, some wcSample, 5⟩

/-- C1: supplying exactly one recognized locator keyword succeeds and stores
the (strategy, selector) pair taken from the locator registry; zero keywords
raises ValueError, more than one keyword raises ValueError, and a single
unrecognized keyword raises a KeyError, all at construction time (the read
path never consults the registry, so no lookup failure can occur at
resolution time).  The registry recognizes exactly the eight documented
keywords. -/
theorem pageElement_init_locator_validation :
    (∀ k v strat c wc wt, locatorLookup k = some strat →
      PageElement.init c wc wt [(k, v)] = Except.ok ⟨(strat, v), c, wc, wt⟩) ∧
    (∀ c wc wt, PageElement.init c wc wt [] = Except.error PyError.valueErrorNoLocator) ∧
    (∀ c wc wt kv kv2 rest,
      PageElement.init c wc wt (kv :: kv2 :: rest) =
        Except.error PyError.valueErrorMultipleLocators) ∧
    (∀ k v c wc wt, locatorLookup k = Option.none →
      PageElement.init c wc wt [(k, v)] = Except.error (PyError.keyError k)) ∧
    (LOCATOR_MAP.map Prod.fst =
      ["css", "id_", "name", "xpath", "link_text", "partial_link_text",
       "tag_name", "class_name"] ∧
     locatorLookup "css" = some By.cssSelector ∧
     locatorLookup "id_" = some By.id ∧
     locatorLookup "name" = some By.name ∧
     locatorLookup "xpath" = some By.xpath ∧
     locatorLookup "link_text" = some By.linkText ∧
     locatorLookup "partial_link_text" = some By.partialLinkText ∧
     locatorLookup "tag_name" = some By.tagName ∧
     locatorLookup "class_name" = some By.className) := by
  refine ⟨?_, ?_, ?_, ?_, ?_⟩
  · intro k v strat c wc wt h
    simp [PageElement.init, h]
  · intro c wc wt
    rfl
  · intro c wc wt kv kv2 rest
    match kv, kv2 with
    | (k1, v1), (k2, v2) => rfl
  · intro k v c wc wt h
    simp [PageElement.init, h]
  · exact ⟨by decide, by decide, by decide, by decide, by decide, by decide,
      by decide, by decide, by decide⟩

/-- C1 witness: the css keyword is accepted and stored, an unrecognized
keyword raises the KeyError, zero and two keywords raise the ValueErrors. -/
theorem pageElement_init_locator_validation_witness :
    PageElement.init false Option.none 5 [("css", "div.x")] =
      Except.ok ⟨(By.cssSelector, "div.x"), false, Option.none, 5⟩ ∧
    PageElement.init false Option.none 5 [("tag", "tr")] =
      Except.error (PyError.keyError "tag") ∧
    PageElement.init false Option.none 5 [] =
      Except.error PyError.valueErrorNoLocator ∧
    PageElement.init false Option.none 5 [("css", "a"), ("id_", "b")] =
      Except.error PyError.valueErrorMultipleLocators := by
  refine ⟨?_, ?_, ?_, ?_⟩
  · exact pageElement_init_locator_validation.1 "css" "div.x" By.cssSelector false
      Option.none 5 (by decide)
  · exact pageElement_init_locator_validation.2.2.2.1 "tag" "tr" false
      Option.none 5 (by decide)
  · exact pageElement_init_locator_validation.2.1 false Option.none 5
  · exact pageElement_init_locator_validation.2.2.1 false Option.none 5
      ("css", "a") ("id_", "b") []

/-- C2: a binding declared with context true, read on an instance without a
context, yields the pending one-argument callable (a constructor distinct
from every resolved value, so neither an element nor absent); applying that
callable to a context element performs exactly the resolution the binding
performs with that element as query root, and when a wait condition is
configured that resolution is the bounded-wait path.  Both descriptor
classes share this behaviour. -/
theorem contextual_read_yields_pending_callable (self : PageElement) (i : PageObject)
    (hc : self.has_context = true) :
    (∃ f, PageElement.get self (some i) Option.none = GetResult.pending f ∧
      (∀ c, GetResult.res (f c) = PageElement.get self (some i) (some c)) ∧
      (∀ c wc, self.wait_condition = some wc →
        f c = PageElement.find_delayed self c)) ∧
    (∃ g, MultiPageElement.get self (some i) Option.none = GetResult.pending g ∧
      (∀ c, GetResult.res (g c) = MultiPageElement.get self (some i) (some c)) ∧
      (∀ c wc, self.wait_condition = some wc →
        g c = PageElement.find_delayed self c)) := by
  constructor
  · refine ⟨fun c => resolveWith self PageElement.findV c, ?_, ?_, ?_⟩
    · simp [PageElement.get, getImpl, hc]
    · intro c
      rfl
    · intro c wc hw
      simp [resolveWith, hw]
  · refine ⟨fun c => resolveWith self MultiPageElement.findV c, ?_, ?_, ?_⟩
    · simp [MultiPageElement.get, getImpl, hc]
    · intro c
      rfl
    · intro c wc hw
      simp [resolveWith, hw]

/-- C2 witness at a concrete contextual binding and instance. -/
theorem contextual_read_yields_pending_callable_witness :
    (∃ f, PageElement.get ctxBinding (some pageHit) Option.none = GetResult.pending f ∧
      (∀ c, GetResult.res (f c) = PageElement.get ctxBinding (some pageHit) (some c)) ∧
      (∀ c wc, ctxBinding.wait_condition = some wc →
        f c = PageElement.find_delayed ctxBinding c)) ∧
    (∃ g, MultiPageElement.get ctxBinding (some pageHit) Option.none = GetResult.pending g ∧
      (∀ c, GetResult.res (g c) = MultiPageElement.get ctxBinding (some pageHit) (some c)) ∧
      (∀ c wc, ctxBinding.wait_condition = some wc →
        g c = PageElement.find_delayed ctxBinding c)) :=
  contextual_read_yields_pending_callable ctxBinding pageHit rfl

/-- C3: a non-contextual, non-waiting single-arity binding read on an
instance converts a NoSuchElementException from find_element into None, and
returns a driver-returned element unchanged; the not-found condition never
escapes the read. -/
theorem single_read_not_found_is_absent (self : PageElement) (i : PageObject)
    (hc : self.has_context = false) (hw : self.wait_condition = Option.none) :
    (i.w.ctx.find_element self.locator = FindElementResult.raiseNoSuchElement →
      PageElement.get self (some i) Option.none = GetResult.res Option.none) ∧
    (∀ e, i.w.ctx.find_element self.locator = FindElementResult.found e →
      PageElement.get self (some i) Option.none =
        GetResult.res (some (PyValue.elem e))) := by
  constructor
  · intro h
    simp [PageElement.get, getImpl, hc, resolveWith, hw, PageElement.findV,
      PageElement.find, h]
  · intro e h
    simp [PageElement.get, getImpl, hc, resolveWith, hw, PageElement.findV,
      PageElement.find, h]

/-- C3 witness: the missing driver yields absent, the finding driver yields
its first element. -/
theorem single_read_not_found_is_absent_witness :
    PageElement.get plainBinding (some pageMiss) Option.none =
      GetResult.res Option.none ∧
    PageElement.get plainBinding (some pageHit) Option.none =
      GetResult.res (some (PyValue.elem elemA)) := by
  constructor
  · exact (single_read_not_found_is_absent plainBinding pageMiss rfl rfl).1 rfl
  · exact (single_read_not_found_is_absent plainBinding pageHit rfl rfl).2 elemA rfl

/-- C4 counterexample: a multi-arity binding with a configured wait condition
whose bounded wait times out resolves to None — the absent value, not a
sequence — because MultiPageElement inherits find_delayed unchanged.  This
refutes the claim that every multi-arity resolution, with or without a wait
condition, returns a sequence and never the absent value. -/
theorem multi_waited_timeout_absent_cex :
    MultiPageElement.get waitedBinding (some pageMiss) Option.none =
      GetResult.res Option.none ∧
    GetResult.res (Option.none : Option PyValue) ≠
      GetResult.res (some (PyValue.elemList [])) := by
  constructor
  · rfl
  · intro h
    simp at h

/-- C4 amended: every multi-arity resolution without a configured wait
condition returns the driver-reported list unchanged — empty when the driver
raises its no-such-element condition — in driver order, whether the root is
the instance driver or a supplied context, and never returns the absent
value; a wait-configured multi-arity resolution instead returns the absent
value when the wait times out. -/
theorem multi_read_returns_sequence (self : PageElement) (i : PageObject)
    (c : Option Ctx) (hc : self.has_context = false)
    (hw : self.wait_condition = Option.none) :
    (∀ es, (c.getD i.w.ctx).find_elements self.locator = FindElementsResult.found es →
      MultiPageElement.get self (some i) c =
        GetResult.res (some (PyValue.elemList es))) ∧
    ((c.getD i.w.ctx).find_elements self.locator = FindElementsResult.raiseNoSuchElement →
      MultiPageElement.get self (some i) c =
        GetResult.res (some (PyValue.elemList []))) ∧
    MultiPageElement.get self (some i) c ≠ GetResult.res Option.none := by
  have hmain : MultiPageElement.get self (some i) c =
      GetResult.res (some (PyValue.elemList
        (MultiPageElement.find self (c.getD i.w.ctx)))) := by
    cases c with
    | none =>
      simp [MultiPageElement.get, getImpl, hc, resolveWith, hw,
        MultiPageElement.findV]
    | some ctx =>
      simp [MultiPageElement.get, getImpl, resolveWith, hw,
        MultiPageElement.findV]
  refine ⟨?_, ?_, ?_⟩
  · intro es h
    rw [hmain, MultiPageElement.find, h]
  · intro h
    rw [hmain, MultiPageElement.find, h]
  · rw [hmain]
    intro h
    simp at h

/-- C4 amended witness: both driver-order return and empty return at concrete
inputs, through the instance root. -/
theorem multi_read_returns_sequence_witness :
    MultiPageElement.get plainBinding (some pageHit) Option.none =
      GetResult.res (some (PyValue.elemList [elemA, elemB])) ∧
    MultiPageElement.get plainBinding (some pageMiss) Option.none =
      GetResult.res (some (PyValue.elemList [])) := by
  constructor
  · exact (multi_read_returns_sequence plainBinding pageHit Option.none rfl rfl).1
      [elemA, elemB] rfl
  · exact (multi_read_returns_sequence plainBinding pageMiss Option.none rfl rfl).1
      [] rfl

/-- C5: writes.  A contextual binding raises the unsupported-operation
ValueError whatever the driver would have answered (the result is uniform in
the instance, so no resolution is consulted); otherwise the binding is first
resolved by the read protocol, a resolution of None (single) or the empty
list (multi) raises the not-found ValueError, a resolved element receives
the written value as keystrokes, and the multi-arity variant sends the value
to every matched element in resolution order. -/
theorem descriptor_write_semantics (self : PageElement) (i : PageObject) (v : String) :
    (self.has_context = true →
      PageElement.set self i v = SetResult.valueErrorContext ∧
      MultiPageElement.set self i v = SetResult.valueErrorContext) ∧
    (self.has_context = false →
      (PageElement.get self (some i) Option.none = GetResult.res Option.none →
        PageElement.set self i v = SetResult.valueErrorNotFound) ∧
      (∀ e, PageElement.get self (some i) Option.none =
          GetResult.res (some (PyValue.elem e)) →
        PageElement.set self i v = SetResult.sent [(e, v)]) ∧
      (MultiPageElement.get self (some i) Option.none = GetResult.res Option.none →
        MultiPageElement.set self i v = SetResult.valueErrorNotFound) ∧
      (MultiPageElement.get self (some i) Option.none =
          GetResult.res (some (PyValue.elemList [])) →
        MultiPageElement.set self i v = SetResult.valueErrorNotFound) ∧
      (∀ e es, MultiPageElement.get self (some i) Option.none =
          GetResult.res (some (PyValue.elemList (e :: es))) →
        MultiPageElement.set self i v =
          SetResult.sent ((e :: es).map (fun x => (x, v))))) := by
  constructor
  · intro hc
    exact ⟨by simp [PageElement.set, hc], by simp [MultiPageElement.set, hc]⟩
  · intro hc
    refine ⟨?_, ?_, ?_, ?_, ?_⟩
    · intro h
      simp [PageElement.set, hc, h]
    · intro e h
      simp [PageElement.set, hc, h]
    · intro h
      simp [MultiPageElement.set, hc, h]
    · intro h
      simp [MultiPageElement.set, hc, h]
    · intro e es h
      simp [MultiPageElement.set, hc, h]

/-- C5 witness: concrete contextual rejection, missing-target rejection, a
single-element write, and a multi-element write in order. -/
theorem descriptor_write_semantics_witness :
    PageElement.set ctxBinding pageHit "v" = SetResult.valueErrorContext ∧
    MultiPageElement.set ctxBinding pageHit "v" = SetResult.valueErrorContext ∧
    PageElement.set plainBinding pageMiss "v" = SetResult.valueErrorNotFound ∧
    MultiPageElement.set plainBinding pageMiss "v" = SetResult.valueErrorNotFound ∧
    PageElement.set plainBinding pageHit "v" = SetResult.sent [(elemA, "v")] ∧
    MultiPageElement.set plainBinding pageHit "v" =
      SetResult.sent [(elemA, "v"), (elemB, "v")] := by
  refine ⟨?_, ?_, ?_, ?_, ?_, ?_⟩
  · exact ((descriptor_write_semantics ctxBinding pageHit "v").1 rfl).1
  · exact ((descriptor_write_semantics ctxBinding pageHit "v").1 rfl).2
  · exact ((descriptor_write_semantics plainBinding pageMiss "v").2 rfl).1 rfl
  · exact ((descriptor_write_semantics plainBinding pageMiss "v").2 rfl).2.2.2.1 rfl
  · exact ((descriptor_write_semantics plainBinding pageHit "v").2 rfl).2.1 elemA rfl
  · exact ((descriptor_write_semantics plainBinding pageHit "v").2 rfl).2.2.2.2
      elemA [elemB] rfl

/-- C6: a non-contextual single-arity binding with a configured wait
condition resolves by invoking the driver bounded wait on the binding root
with the configured wait_time and the predicate built by applying the wait
condition to the stored locator; a satisfied wait returns the satisfying
value and a raised TimeoutException is converted to None rather than
propagated. -/
theorem waited_read_semantics (self : PageElement) (i : PageObject)
    (wc : WaitCondition) (hc : self.has_context = false)
    (hw : self.wait_condition = some wc) :
    PageElement.get self (some i) Option.none =
      GetResult.res
        (match i.w.ctx.waitUntil self.wait_time (wc self.locator) with
         | WaitResult.satisfied v => some v
         | WaitResult.raiseTimeout => Option.none) := by
  simp [PageElement.get, getImpl, hc, resolveWith, hw, PageElement.find_delayed]

/-- C6 witness: the satisfied wait returns the element, the timed-out wait
returns absent. -/
theorem waited_read_semantics_witness :
    PageElement.get waitedBinding (some pageHit) Option.none =
      GetResult.res (some (PyValue.elem elemA)) ∧
    PageElement.get waitedBinding (some pageMiss) Option.none =
      GetResult.res Option.none := by
  constructor
  · exact waited_read_semantics waitedBinding pageHit wcSample rfl rfl
  · exact waited_read_semantics waitedBinding pageMiss wcSample rfl rfl

/-- C7: constructing a framed context manager from None raises ValueError
while a real element is accepted; running any block under the scope issues
exactly one switch-into-frame call before the block and exactly one
switch-back-to-default-content call after it, even when the block raised,
and the block outcome — success or exception — is propagated untouched. -/
theorem iframe_scope_semantics :
    IframeElement.init Option.none = Except.error PyError.valueErrorNoIframe ∧
    (∀ e, IframeElement.init (some e) = Except.ok ⟨e⟩) ∧
    (∀ self r calls, IframeElement.withScope self r calls =
      (r, FrameCall.switchToFrame self.iframe ::
        (calls ++ [FrameCall.switchToDefaultContent]))) ∧
    (∀ self r calls,
      (IframeElement.withScope self r calls).2.count
          (FrameCall.switchToFrame self.iframe) =
        calls.count (FrameCall.switchToFrame self.iframe) + 1 ∧
      (IframeElement.withScope self r calls).2.count
          FrameCall.switchToDefaultContent =
        calls.count FrameCall.switchToDefaultContent + 1) := by
  have hshape : ∀ (self : IframeElement) (r : Except PyExc Unit)
      (calls : List FrameCall), IframeElement.withScope self r calls =
      (r, FrameCall.switchToFrame self.iframe ::
        (calls ++ [FrameCall.switchToDefaultContent])) := by
    intro self r calls
    cases r with
    | ok u => rfl
    | error e => rfl
  refine ⟨rfl, fun e => rfl, hshape, ?_⟩
  intro self r calls
  rw [hshape]
  constructor
  · simp [List.count_cons, List.count_append]
  · simp [List.count_cons, List.count_append]

/-- C8: navigation issues a page-load request for the plain string
concatenation of the base URI — the empty string when the base URI is
absent — with the supplied path, with no validation; in particular base
http://x/ with path foo requests http://x/foo, and no base URI with no
ambient driver URI requests foo alone. -/
theorem pageobject_get_concatenates (i : PageObject) (uri base : String) :
    (i.root_uri = Option.none → PageObject.get i uri = "" ++ uri) ∧
    (i.root_uri = some base → base ≠ "" → PageObject.get i uri = base ++ uri) ∧
    PageObject.get (PageObject.init driverMiss (some "http://x/")) "foo" =
      "http://x/foo" ∧
    PageObject.get (PageObject.init driverMiss Option.none) "foo" = "foo" := by
  refine ⟨?_, ?_, ?_, ?_⟩
  · intro h
    simp [PageObject.get, h]
  · intro h hb
    have hne : base.isEmpty = false := by
      cases hbe : base.isEmpty with
      | false => rfl
      | true => exact absurd ((String.isEmpty_iff base).mp hbe) hb
    simp [PageObject.get, h, hne]
  · rfl
  · rfl

/-- C8 witness: the two hypothesis-guarded conjuncts at concrete pages. -/
theorem pageobject_get_concatenates_witness :
    PageObject.get (⟨driverMiss, some "http://x/"⟩ : PageObject) "foo" =
      "http://x/" ++ "foo" ∧
    PageObject.get (⟨driverMiss, Option.none⟩ : PageObject) "foo" = "" ++ "foo" := by
  constructor
  · exact (pageobject_get_concatenates ⟨driverMiss, some "http://x/"⟩ "foo"
      "http://x/").2.1 rfl (by decide)
  · exact (pageobject_get_concatenates ⟨driverMiss, Option.none⟩ "foo" "x").1 rfl

/-- C9: an explicit base URI equal to the empty string is Python-falsy, so
construction falls back to the ambient driver root_uri R; navigation then
requests R concatenated with the path. -/
theorem empty_root_uri_uses_driver (w : Webdriver) (r p : String)
    (h : w.root_uri = some r) :
    (PageObject.init w (some "")).root_uri = some r ∧
    PageObject.get (PageObject.init w (some "")) p = r ++ p := by
  have hinit : PageObject.init w (some "") = ⟨w, some r⟩ := by
    have he : "".isEmpty = true := rfl
    simp [PageObject.init, he, h]
  refine ⟨by rw [hinit], ?_⟩
  rw [hinit]
  cases hre : r.isEmpty with
  | true =>
    have hr : r = "" := (String.isEmpty_iff r).mp hre
    subst hr
    simp [PageObject.get]
  | false =>
    simp [PageObject.get, hre]

/-- C9 witness at a concrete driver carrying an ambient root URI. -/
theorem empty_root_uri_uses_driver_witness :
    (PageObject.init (⟨ctxMiss, some "http://r/"⟩ : Webdriver) (some "")).root_uri =
      some "http://r/" ∧
    PageObject.get (PageObject.init (⟨ctxMiss, some "http://r/"⟩ : Webdriver)
      (some "")) "p" = "http://r/" ++ "p" :=
  empty_root_uri_uses_driver ⟨ctxMiss, some "http://r/"⟩ "http://r/" "p" rfl

/-- C10: reading any binding — either arity, any context flag, any wait
configuration — through the class rather than an instance yields None, a
resolved result rather than the binding or a callable, and the outcome is
the same for every possible context argument and driver, so no driver query
is consulted. -/
theorem class_read_returns_none (self : PageElement) (c : Option Ctx) :
    PageElement.get self Option.none c = GetResult.res Option.none ∧
    MultiPageElement.get self Option.none c = GetResult.res Option.none := by
  constructor
  · rfl
  · rfl
